import Mathlib

/-!
Verification of the V4L2 device-discovery layer (`vision/backend/_ioctl.py`
and `vision/backend/_device.py`).

The development shallowly embeds the ioctl request-code builder, the ctypes
wire-record layouts (we model the ctypes layout algorithm for an LP64 Linux
target: 4-byte `c_uint32`, 8-byte aligned pointers), the three index-driven
enumeration loops, and the `DeviceInfo.from_file` aggregation.  Machine
integers are modelled as `Nat`/`Int`; `ctypes.c_int32(x).value` becomes an
explicit wrap into `[-2^31, 2^31)`; Python's `|` on (possibly negative)
arbitrary-precision integers is `Int.lor`, which has exactly Python's
two's-complement semantics.
-/

/-! ## `_ioctl.py`: request-code builder -/

def NRBITS : Nat := 8

def TYPEBITS : Nat := 8

def SIZEBITS : Nat := 14

def DIRBITS : Nat := 2

def NRSHIFT : Nat := 0

def TYPESHIFT : Nat := NRSHIFT + NRBITS

def SIZESHIFT : Nat := TYPESHIFT + TYPEBITS

def DIRSHIFT : Nat := SIZESHIFT + SIZEBITS

namespace IOCDirection

def NONE : Nat := 0

def WRITE : Nat := 1

def READ : Nat := 2

end IOCDirection

/-- `ctypes.c_int32(x).value`: wrap an integer into the signed 32-bit range. -/
def c_int32_value (x : Int) : Int := (x + 2 ^ 31) % 2 ^ 32 - 2 ^ 31

/-- A ctypes field or type: (alignment, byte size), LP64 Linux ABI. -/
structure CField where
  align : Nat
  size : Nat
deriving DecidableEq

/-- Byte offset `off` rounded up to alignment `a`. -/
def alignTo (off a : Nat) : Nat := (off + a - 1) / a * a

/-- ctypes `Structure` layout: fields at aligned offsets, total size rounded
up to the largest member alignment. -/
def structLayout (fs : List CField) : CField :=
  let al := fs.foldl (fun m f => max m f.align) 1
  let sz := fs.foldl (fun off f => alignTo off f.align + f.size) 0
  ⟨al, alignTo sz al⟩

/-- ctypes `Union` layout: size of the largest member, rounded up to the
largest member alignment. -/
def unionLayout (fs : List CField) : CField :=
  let al := fs.foldl (fun m f => max m f.align) 1
  let sz := fs.foldl (fun m f => max m f.size) 0
  ⟨al, alignTo sz al⟩

def c_char : CField := ⟨1, 1⟩

def c_uint8 : CField := ⟨1, 1⟩

def c_uint16 : CField := ⟨2, 2⟩

def c_uint32 : CField := ⟨4, 4⟩

def c_int32 : CField := ⟨4, 4⟩

/-- `ctypes.POINTER(...)` on LP64. -/
def c_pointer : CField := ⟨8, 8⟩

/-- A ctypes array `elem * n`. -/
def arr (f : CField) (n : Nat) : CField := ⟨f.align, f.size * n⟩

def sizeof (f : CField) : Nat := f.size

/-- `IOC.__init__`: the request code, as built by
`c_int32(direction << DIRSHIFT).value | c_int32(magic << TYPESHIFT).value |
 c_int32(number << NRSHIFT).value | c_int32(sizeof(size) << SIZESHIFT).value`
with `magic = ord("V")`.  Python's `|` on ints is `Int.lor`. -/
def IOC_request (direction number size : Nat) : Int :=
  Int.lor
    (Int.lor
      (Int.lor (c_int32_value ((direction <<< DIRSHIFT : Nat) : Int))
        (c_int32_value ((Char.toNat 'V' <<< TYPESHIFT : Nat) : Int)))
      (c_int32_value ((number <<< NRSHIFT : Nat) : Int)))
    (c_int32_value ((size <<< SIZESHIFT : Nat) : Int))

def IOR (number size : Nat) : Int := IOC_request IOCDirection.READ number size

def IOW (number size : Nat) : Int := IOC_request IOCDirection.WRITE number size

def IOWR (number size : Nat) : Int :=
  IOC_request (IOCDirection.WRITE ||| IOCDirection.READ) number size

/-! ### Wire-record layouts (`_ioctl.py` ctypes declarations) -/

def v4l2_capability : CField :=
  structLayout [arr c_char 16, arr c_char 32, arr c_char 32,
    c_uint32, c_uint32, c_uint32, arr c_uint32 3]

def vidioc_querycap : Int := IOR 0 (sizeof v4l2_capability)

def v4l2_fmtdesc : CField :=
  structLayout [c_uint32, c_uint32, c_uint32, arr c_char 32,
    c_uint32, c_uint32, arr c_uint32 3]

def vidioc_enum_fmt : Int := IOWR 2 (sizeof v4l2_fmtdesc)

def v42l_frmsize_discrete : CField := structLayout [c_uint32, c_uint32]

def v4l2_frmsize_stepwise : CField :=
  structLayout [c_uint32, c_uint32, c_uint32, c_uint32, c_uint32, c_uint32]

def v42l_frmsizeenum_anon : CField :=
  unionLayout [v42l_frmsize_discrete, v4l2_frmsize_stepwise]

def v4l2_frmsizeenum : CField :=
  structLayout [c_uint32, c_uint32, c_uint32, v42l_frmsizeenum_anon,
    arr c_uint32 2]

def vidioc_enum_framesizes : Int := IOWR 74 (sizeof v4l2_frmsizeenum)

def v4l2_fract : CField := structLayout [c_uint32, c_uint32]

def v4l2_frmival_stepwise : CField :=
  structLayout [v4l2_fract, v4l2_fract, v4l2_fract]

def v4l2_frmivalenum_anon : CField :=
  unionLayout [v4l2_fract, v4l2_frmival_stepwise]

def v4l2_frmivalenum : CField :=
  structLayout [c_uint32, c_uint32, c_uint32, c_uint32, c_uint32,
    v4l2_frmivalenum_anon, arr c_uint32 2]

def vidioc_enum_frameintervals : Int := IOWR 75 (sizeof v4l2_frmivalenum)

def v4l2_pix_format_anon : CField := unionLayout [c_uint32, c_uint32]

def v4l2_pix_format : CField :=
  structLayout [c_uint32, c_uint32, c_uint32, c_uint32, c_uint32, c_uint32,
    c_uint32, c_uint32, c_uint32, v4l2_pix_format_anon, c_uint32, c_uint32]

def v4l2_plane_pix_format : CField :=
  structLayout [c_uint32, c_uint32, arr c_uint16 6]

def v4l2_pix_format_mplane : CField :=
  structLayout [c_uint32, c_uint32, c_uint32, c_uint32, c_uint32,
    arr v4l2_plane_pix_format 8, c_uint8, c_uint8, v4l2_pix_format_anon,
    c_uint8, c_uint8, arr c_uint8 7]

def v4l2_rect : CField := structLayout [c_uint32, c_uint32, c_uint32, c_uint32]

def v4l2_clip : CField := structLayout [v4l2_rect, c_pointer]

def v4l2_window : CField :=
  structLayout [v4l2_rect, c_uint32, c_uint32, c_pointer, c_uint32,
    c_pointer, c_uint8]

def v4l2_vbi_format : CField :=
  structLayout [c_uint32, c_uint32, c_uint32, c_uint32, arr c_int32 2,
    arr c_uint32 2, c_uint32, arr c_uint32 2]

def v4l2_sliced_vbi_format : CField :=
  structLayout [c_uint16, arr (arr c_uint16 24) 2, c_uint32, arr c_uint32 2]

def v4l2_sdr_format : CField :=
  structLayout [c_uint32, c_uint32, arr c_uint8 24]

def v4l2_meta_format : CField := structLayout [c_uint32, c_uint32]

def v4l2_format_fmt : CField :=
  unionLayout [v4l2_pix_format, v4l2_pix_format_mplane, v4l2_window,
    v4l2_vbi_format, v4l2_sliced_vbi_format, v4l2_sdr_format,
    v4l2_meta_format, arr c_uint8 200]

def v4l2_format : CField := structLayout [c_uint32, v4l2_format_fmt]

def vidioc_g_fmt : Int := IOWR 4 (sizeof v4l2_format)

def vidioc_s_fmt : Int := IOWR 5 (sizeof v4l2_format)

def vidioc_try_fmt : Int := IOWR 64 (sizeof v4l2_format)

def v4l2_captureparm : CField :=
  structLayout [c_uint32, c_uint32, v4l2_fract, c_uint32, c_uint32,
    arr c_uint32 4]

def v4l2_outputparam : CField :=
  structLayout [c_uint32, c_uint32, v4l2_fract, c_uint32, c_uint32,
    arr c_uint32 4]

def v4l2_streamparm_parm : CField :=
  unionLayout [v4l2_captureparm, v4l2_outputparam]

def v4l2_streamparm : CField :=
  structLayout [c_uint32, v4l2_streamparm_parm, arr c_uint8 200]

def vidioc_g_param : Int := IOWR 21 (sizeof v4l2_streamparm)

def vidioc_s_param : Int := IOWR 22 (sizeof v4l2_streamparm)

example : sizeof v4l2_capability = 104 := by decide
example : sizeof v4l2_fmtdesc = 64 := by decide
example : sizeof v4l2_frmsizeenum = 44 := by decide
example : sizeof v4l2_frmivalenum = 52 := by decide
example : sizeof v4l2_format = 208 := by decide
example : sizeof v4l2_streamparm = 244 := by decide

/-! ## Bitwise helpers for the request-code layout -/

theorem lor_two_pow_mul (k a m : Nat) (ha : a < 2 ^ k) :
    a ||| 2 ^ k * m = a + 2 ^ k * m := by
  apply Nat.eq_of_testBit_eq
  intro j
  rw [Nat.add_comm a (2 ^ k * m), Nat.testBit_mul_pow_two_add m ha j, Nat.testBit_or,
    Nat.testBit_mul_pow_two]
  by_cases hj : j < k
  · have h1 : ¬ j ≥ k := by omega
    simp [hj, h1]
  · have h1 : j ≥ k := by omega
    have haj : a < 2 ^ j := lt_of_lt_of_le ha (Nat.pow_le_pow_right (by omega) h1)
    simp [hj, h1, Nat.testBit_lt_two_pow haj]

theorem ldiff_mask_sub (w x y : Nat) (hx : x < 2 ^ w) (hy : y < 2 ^ w) :
    Nat.ldiff (2 ^ w - 1 - x) y = 2 ^ w - 1 - (x ||| y) := by
  have hxy : x ||| y < 2 ^ w := Nat.or_lt_two_pow hx hy
  apply Nat.eq_of_testBit_eq
  intro j
  have h1 : 2 ^ w - 1 - x = 2 ^ w - (x + 1) := by omega
  have h2 : 2 ^ w - 1 - (x ||| y) = 2 ^ w - ((x ||| y) + 1) := by omega
  rw [Nat.testBit_ldiff, h1, h2, Nat.testBit_two_pow_sub_succ hx,
    Nat.testBit_two_pow_sub_succ hxy, Nat.testBit_or]
  by_cases hj : j < w
  · simp [hj, Bool.not_or, Bool.and_assoc]
  · simp [hj]

theorem c_int32_value_small (x : Int) (h0 : 0 ≤ x) (h : x < 2 ^ 31) :
    c_int32_value x = x := by
  unfold c_int32_value
  omega

theorem int_lor_ofNat (a b : Nat) :
    Int.lor ((a : Nat) : Int) ((b : Nat) : Int) = ((a ||| b : Nat) : Int) := rfl

theorem int_lor_negSucc (m b : Nat) :
    Int.lor (Int.negSucc m) ((b : Nat) : Int) = Int.negSucc (Nat.ldiff m b) := rfl

theorem negSucc_mask_emod (t : Nat) (ht : t < 2 ^ 32) :
    (Int.negSucc (2 ^ 32 - 1 - t)) % (2 ^ 32 : Int) = (t : Int) := by
  rw [Int.negSucc_eq]
  omega

/-- Source grouping `((dir ||| type) ||| number) ||| size` collapses to a sum:
the four fields occupy disjoint bit ranges. -/
theorem fourfield_or (d s n : Nat) (hn : n < 2 ^ 8) (hs : s < 2 ^ 14) :
    ((d * 2 ^ 30 ||| 86 * 2 ^ 8) ||| n) ||| s * 2 ^ 16
      = d * 2 ^ 30 + s * 2 ^ 16 + 86 * 2 ^ 8 + n := by
  rw [Nat.or_comm (d * 2 ^ 30 ||| 86 * 2 ^ 8) n, Nat.or_assoc,
    Nat.or_comm (d * 2 ^ 30) (86 * 2 ^ 8), Nat.or_assoc,
    Nat.or_comm (d * 2 ^ 30) (s * 2 ^ 16)]
  rw [show d * 2 ^ 30 = 2 ^ 30 * d from Nat.mul_comm _ _,
    lor_two_pow_mul 30 _ _ (by omega)]
  rw [show s * 2 ^ 16 + 2 ^ 30 * d = 2 ^ 16 * (s + 2 ^ 14 * d) from by ring,
    lor_two_pow_mul 16 _ _ (by omega)]
  rw [show 86 * 2 ^ 8 + 2 ^ 16 * (s + 2 ^ 14 * d) = 2 ^ 8 * (86 + 2 ^ 8 * (s + 2 ^ 14 * d))
      from by ring,
    lor_two_pow_mul 8 _ _ hn]
  ring

/-- The claimed-layout grouping `((dir ||| size) ||| type) ||| number` also
collapses to the same sum. -/
theorem layout_sum (d s n : Nat) (hn : n < 2 ^ 8) (hs : s < 2 ^ 14) :
    ((d <<< 30 ||| s <<< 16) ||| Char.toNat 'V' <<< 8) ||| n
      = d * 2 ^ 30 + s * 2 ^ 16 + 86 * 2 ^ 8 + n := by
  rw [Nat.shiftLeft_eq d 30, Nat.shiftLeft_eq s 16,
    show Char.toNat 'V' <<< 8 = 86 * 2 ^ 8 from by decide]
  rw [Nat.or_comm (d * 2 ^ 30) (s * 2 ^ 16),
    show d * 2 ^ 30 = 2 ^ 30 * d from Nat.mul_comm _ _,
    lor_two_pow_mul 30 _ _ (by omega)]
  rw [Nat.or_comm _ (86 * 2 ^ 8),
    show s * 2 ^ 16 + 2 ^ 30 * d = 2 ^ 16 * (s + 2 ^ 14 * d) from by ring,
    lor_two_pow_mul 16 _ _ (by omega)]
  rw [Nat.or_comm _ n,
    show 86 * 2 ^ 8 + 2 ^ 16 * (s + 2 ^ 14 * d) = 2 ^ 8 * (86 + 2 ^ 8 * (s + 2 ^ 14 * d))
      from by ring,
    lor_two_pow_mul 8 _ _ hn]
  ring

/-- The signed request code, reduced mod `2^32`, is the unsigned bit pattern
`dir·2^30 + size·2^16 + 86·2^8 + number`. -/
theorem IOC_request_emod (d n s : Nat) (hd : d < 4) (hn : n < 2 ^ 8) (hs : s < 2 ^ 14) :
    IOC_request d n s % (2 ^ 32 : Int)
      = ((d * 2 ^ 30 + s * 2 ^ 16 + 86 * 2 ^ 8 + n : Nat) : Int) := by
  have hB : c_int32_value ((Char.toNat 'V' <<< TYPESHIFT : Nat) : Int)
      = ((86 * 2 ^ 8 : Nat) : Int) := by decide
  have hN : c_int32_value ((n <<< NRSHIFT : Nat) : Int) = ((n : Nat) : Int) := by
    rw [show NRSHIFT = 0 from rfl, Nat.shiftLeft_zero]
    exact c_int32_value_small _ (Int.natCast_nonneg _) (by push_cast; omega)
  have hS : c_int32_value ((s <<< SIZESHIFT : Nat) : Int) = ((s * 2 ^ 16 : Nat) : Int) := by
    rw [show SIZESHIFT = 16 from rfl, Nat.shiftLeft_eq]
    exact c_int32_value_small _ (Int.natCast_nonneg _) (by push_cast; omega)
  unfold IOC_request
  interval_cases d
  · have hA : c_int32_value ((0 <<< DIRSHIFT : Nat) : Int) = ((0 * 2 ^ 30 : Nat) : Int) := by
      decide
    rw [hA, hB, hN, hS, int_lor_ofNat, int_lor_ofNat, int_lor_ofNat,
      fourfield_or 0 s n hn hs]
    exact Int.emod_eq_of_lt (Int.natCast_nonneg _) (by push_cast; omega)
  · have hA : c_int32_value ((1 <<< DIRSHIFT : Nat) : Int) = ((1 * 2 ^ 30 : Nat) : Int) := by
      decide
    rw [hA, hB, hN, hS, int_lor_ofNat, int_lor_ofNat, int_lor_ofNat,
      fourfield_or 1 s n hn hs]
    exact Int.emod_eq_of_lt (Int.natCast_nonneg _) (by push_cast; omega)
  · have hA : c_int32_value ((2 <<< DIRSHIFT : Nat) : Int)
        = Int.negSucc (2 ^ 32 - 1 - 2 * 2 ^ 30) := by decide
    rw [hA, hB, int_lor_negSucc, ldiff_mask_sub 32 _ _ (by omega) (by omega),
      hN, int_lor_negSucc,
      ldiff_mask_sub 32 _ _ (Nat.or_lt_two_pow (by omega) (by omega)) (by omega),
      hS, int_lor_negSucc,
      ldiff_mask_sub 32 _ _
        (Nat.or_lt_two_pow (Nat.or_lt_two_pow (by omega) (by omega)) (by omega))
        (by omega),
      fourfield_or 2 s n hn hs]
    exact negSucc_mask_emod _ (by omega)
  · have hA : c_int32_value ((3 <<< DIRSHIFT : Nat) : Int)
        = Int.negSucc (2 ^ 32 - 1 - 3 * 2 ^ 30) := by decide
    rw [hA, hB, int_lor_negSucc, ldiff_mask_sub 32 _ _ (by omega) (by omega),
      hN, int_lor_negSucc,
      ldiff_mask_sub 32 _ _ (Nat.or_lt_two_pow (by omega) (by omega)) (by omega),
      hS, int_lor_negSucc,
      ldiff_mask_sub 32 _ _
        (Nat.or_lt_two_pow (Nat.or_lt_two_pow (by omega) (by omega)) (by omega))
        (by omega),
      fourfield_or 3 s n hn hs]
    exact negSucc_mask_emod _ (by omega)

/-- C1 (amended): for every direction flag (`d < 4`), request number
(`< 2^NRBITS`) and record byte size (`< 2^SIZEBITS`), the unsigned 32-bit
view of the request code has bit layout `dir(2) | size(14) | type(8) |
number(8)` from high to low — `code = (dir <<< 30) ||| (size <<< 16) |||
(type <<< 8) ||| number` with the type field the ASCII code of 'V' — and
not the claimed order `dir | type | number | size`. -/
theorem c1_request_bit_layout (d n s : Nat) (hd : d < 4) (hn : n < 2 ^ NRBITS)
    (hs : s < 2 ^ SIZEBITS) :
    IOC_request d n s % (2 ^ 32 : Int)
      = ((((d <<< 30 ||| s <<< 16) ||| Char.toNat 'V' <<< 8) ||| n : Nat) : Int) := by
  rw [IOC_request_emod d n s hd hn hs, layout_sum d s n hn hs]

/-- Witness for `c1_request_bit_layout` at the querycap triple
(direction READ = 2, number 0, size 104). -/
theorem c1_request_bit_layout_witness :
    IOC_request 2 0 104 % (2 ^ 32 : Int)
      = ((((2 <<< 30 ||| 104 <<< 16) ||| Char.toNat 'V' <<< 8) ||| 0 : Nat) : Int) :=
  c1_request_bit_layout 2 0 104 (by decide) (by decide) (by decide)

/-- Evaluates the request code's unsigned view to a literal. -/
theorem IOC_request_emod_lit (d n s v : Nat) (hd : d < 4) (hn : n < 2 ^ 8)
    (hs : s < 2 ^ 14) (hv : d * 2 ^ 30 + s * 2 ^ 16 + 86 * 2 ^ 8 + n = v) :
    IOC_request d n s % (2 ^ 32 : Int) = ((v : Nat) : Int) := by
  rw [IOC_request_emod d n s hd hn hs, hv]

/-- C1 counterexample: at direction READ, number 0 and the capability record
size (the querycap request), the code's unsigned bit pattern (0x80685600)
differs from the claimed layout `(dir <<< 30) ||| (type <<< 22) |||
(number <<< 14) ||| size` (0x95800068). -/
theorem c1_claimed_layout_counterexample :
    vidioc_querycap % (2 ^ 32 : Int)
      ≠ ((((IOCDirection.READ <<< 30 ||| Char.toNat 'V' <<< 22) ||| 0 <<< 14) |||
          sizeof v4l2_capability : Nat) : Int) := by
  rw [show vidioc_querycap = IOC_request 2 0 104 from rfl,
    IOC_request_emod_lit 2 0 104 2154321408 (by norm_num) (by norm_num) (by norm_num)
      (by norm_num)]
  decide

/-- C8: the request-code builder is deterministic (equal inputs give equal
codes), and the nine request codes this protocol uses — numbers 0, 2, 4, 5,
21, 22, 64, 74, 75 with their records — are pairwise distinct. -/
theorem c8_deterministic_and_distinct :
    (∀ d n s d' n' s' : Nat, d = d' → n = n' → s = s' →
        IOC_request d n s = IOC_request d' n' s') ∧
    [vidioc_querycap, vidioc_enum_fmt, vidioc_g_fmt, vidioc_s_fmt,
      vidioc_try_fmt, vidioc_g_param, vidioc_s_param,
      vidioc_enum_framesizes, vidioc_enum_frameintervals].Nodup := by
  refine ⟨?_, ?_⟩
  · intro d n s d' n' s' h1 h2 h3
    rw [h1, h2, h3]
  · apply List.Nodup.of_map (· % (2 ^ 32 : Int))
    have h1 : vidioc_querycap % (2 ^ 32 : Int) = ((2154321408 : Nat) : Int) := by
      rw [show vidioc_querycap = IOC_request 2 0 104 from rfl]
      exact IOC_request_emod_lit 2 0 104 2154321408 (by norm_num) (by norm_num)
        (by norm_num) (by norm_num)
    have h2 : vidioc_enum_fmt % (2 ^ 32 : Int) = ((3225441794 : Nat) : Int) := by
      rw [show vidioc_enum_fmt = IOC_request 3 2 64 from rfl]
      exact IOC_request_emod_lit 3 2 64 3225441794 (by norm_num) (by norm_num)
        (by norm_num) (by norm_num)
    have h3 : vidioc_g_fmt % (2 ^ 32 : Int) = ((3234878980 : Nat) : Int) := by
      rw [show vidioc_g_fmt = IOC_request 3 4 208 from rfl]
      exact IOC_request_emod_lit 3 4 208 3234878980 (by norm_num) (by norm_num)
        (by norm_num) (by norm_num)
    have h4 : vidioc_s_fmt % (2 ^ 32 : Int) = ((3234878981 : Nat) : Int) := by
      rw [show vidioc_s_fmt = IOC_request 3 5 208 from rfl]
      exact IOC_request_emod_lit 3 5 208 3234878981 (by norm_num) (by norm_num)
        (by norm_num) (by norm_num)
    have h5 : vidioc_try_fmt % (2 ^ 32 : Int) = ((3234879040 : Nat) : Int) := by
      rw [show vidioc_try_fmt = IOC_request 3 64 208 from rfl]
      exact IOC_request_emod_lit 3 64 208 3234879040 (by norm_num) (by norm_num)
        (by norm_num) (by norm_num)
    have h6 : vidioc_g_param % (2 ^ 32 : Int) = ((3237238293 : Nat) : Int) := by
      rw [show vidioc_g_param = IOC_request 3 21 244 from rfl]
      exact IOC_request_emod_lit 3 21 244 3237238293 (by norm_num) (by norm_num)
        (by norm_num) (by norm_num)
    have h7 : vidioc_s_param % (2 ^ 32 : Int) = ((3237238294 : Nat) : Int) := by
      rw [show vidioc_s_param = IOC_request 3 22 244 from rfl]
      exact IOC_request_emod_lit 3 22 244 3237238294 (by norm_num) (by norm_num)
        (by norm_num) (by norm_num)
    have h8 : vidioc_enum_framesizes % (2 ^ 32 : Int) = ((3224131146 : Nat) : Int) := by
      rw [show vidioc_enum_framesizes = IOC_request 3 74 44 from rfl]
      exact IOC_request_emod_lit 3 74 44 3224131146 (by norm_num) (by norm_num)
        (by norm_num) (by norm_num)
    have h9 : vidioc_enum_frameintervals % (2 ^ 32 : Int) = ((3224655435 : Nat) : Int) := by
      rw [show vidioc_enum_frameintervals = IOC_request 3 75 52 from rfl]
      exact IOC_request_emod_lit 3 75 52 3224655435 (by norm_num) (by norm_num)
        (by norm_num) (by norm_num)
    simp only [List.map_cons, List.map_nil, h1, h2, h3, h4, h5, h6, h7, h8, h9]
    decide

/-- Witness for `c8_deterministic_and_distinct` at the querycap triple. -/
theorem c8_deterministic_witness :
    IOC_request 2 0 104 = IOC_request 2 0 104 :=
  c8_deterministic_and_distinct.1 2 0 104 2 0 104 rfl rfl rfl

/-! ## `_device.py`: pixel-format fourcc construction -/

/-- `v4l2_fourcc(a, b, c, d)`: four character codes packed into bytes 0-3,
little-endian (`ord(a) | ord(b) << 8 | ord(c) << 16 | ord(d) << 24`). -/
def v4l2_fourcc (a b c d : Char) : Nat :=
  a.toNat ||| b.toNat <<< 8 ||| c.toNat <<< 16 ||| d.toNat <<< 24

/-- `v4l2_fourcc_be`: the same code with bit 31 (the big-endian marker) set. -/
def v4l2_fourcc_be (a b c d : Char) : Nat :=
  v4l2_fourcc a b c d ||| 1 <<< 31

theorem v4l2_fourcc_eq (a b c d : Char) (ha : a.toNat < 128) (hb : b.toNat < 128)
    (hc : c.toNat < 128) (hd : d.toNat < 128) :
    v4l2_fourcc a b c d
      = a.toNat + 2 ^ 8 * b.toNat + 2 ^ 16 * c.toNat + 2 ^ 24 * d.toNat := by
  unfold v4l2_fourcc
  rw [Nat.shiftLeft_eq, Nat.shiftLeft_eq, Nat.shiftLeft_eq,
    show b.toNat * 2 ^ 8 = 2 ^ 8 * b.toNat from Nat.mul_comm _ _,
    lor_two_pow_mul 8 _ _ (by omega),
    show c.toNat * 2 ^ 16 = 2 ^ 16 * c.toNat from Nat.mul_comm _ _,
    lor_two_pow_mul 16 _ _ (by omega),
    show d.toNat * 2 ^ 24 = 2 ^ 24 * d.toNat from Nat.mul_comm _ _,
    lor_two_pow_mul 24 _ _ (by omega)]

theorem v4l2_fourcc_be_eq (a b c d : Char) (ha : a.toNat < 128) (hb : b.toNat < 128)
    (hc : c.toNat < 128) (hd : d.toNat < 128) :
    v4l2_fourcc_be a b c d
      = a.toNat + 2 ^ 8 * b.toNat + 2 ^ 16 * c.toNat + 2 ^ 24 * d.toNat + 2 ^ 31 := by
  unfold v4l2_fourcc_be
  rw [v4l2_fourcc_eq a b c d ha hb hc hd,
    show (1 : Nat) <<< 31 = 2 ^ 31 * 1 from rfl,
    lor_two_pow_mul 31 _ _ (by omega)]
  ring

/-- C7: pixel-format construction is a round trip — byte 0 of the code is the
first character, byte 1 the second, byte 2 the third, and the low 7 bits of
byte 3 the fourth, for both constructors; bit 31 is clear for `v4l2_fourcc`
and set for `v4l2_fourcc_be`. -/
theorem c7_fourcc_round_trip (a b c d : Char) (ha : a.toNat < 128)
    (hb : b.toNat < 128) (hc : c.toNat < 128) (hd : d.toNat < 128) :
    v4l2_fourcc a b c d % 2 ^ 8 = a.toNat ∧
    v4l2_fourcc a b c d / 2 ^ 8 % 2 ^ 8 = b.toNat ∧
    v4l2_fourcc a b c d / 2 ^ 16 % 2 ^ 8 = c.toNat ∧
    v4l2_fourcc a b c d / 2 ^ 24 % 2 ^ 7 = d.toNat ∧
    Nat.testBit (v4l2_fourcc a b c d) 31 = false ∧
    v4l2_fourcc_be a b c d % 2 ^ 8 = a.toNat ∧
    v4l2_fourcc_be a b c d / 2 ^ 8 % 2 ^ 8 = b.toNat ∧
    v4l2_fourcc_be a b c d / 2 ^ 16 % 2 ^ 8 = c.toNat ∧
    v4l2_fourcc_be a b c d / 2 ^ 24 % 2 ^ 7 = d.toNat ∧
    Nat.testBit (v4l2_fourcc_be a b c d) 31 = true := by
  have he := v4l2_fourcc_eq a b c d ha hb hc hd
  have hbe := v4l2_fourcc_be_eq a b c d ha hb hc hd
  refine ⟨by rw [he]; omega, by rw [he]; omega, by rw [he]; omega, by rw [he]; omega,
    ?_, by rw [hbe]; omega, by rw [hbe]; omega, by rw [hbe]; omega, by rw [hbe]; omega, ?_⟩
  · rw [Nat.testBit_to_div_mod, he, decide_eq_false_iff_not]
    omega
  · rw [Nat.testBit_to_div_mod, hbe, decide_eq_true_eq]
    omega

/-- Witness for `c7_fourcc_round_trip` at the 'YUYV' tag. -/
theorem c7_fourcc_round_trip_witness :
    v4l2_fourcc 'Y' 'U' 'Y' 'V' % 2 ^ 8 = Char.toNat 'Y' ∧
    v4l2_fourcc 'Y' 'U' 'Y' 'V' / 2 ^ 8 % 2 ^ 8 = Char.toNat 'U' ∧
    v4l2_fourcc 'Y' 'U' 'Y' 'V' / 2 ^ 16 % 2 ^ 8 = Char.toNat 'Y' ∧
    v4l2_fourcc 'Y' 'U' 'Y' 'V' / 2 ^ 24 % 2 ^ 7 = Char.toNat 'V' ∧
    Nat.testBit (v4l2_fourcc 'Y' 'U' 'Y' 'V') 31 = false ∧
    v4l2_fourcc_be 'Y' 'U' 'Y' 'V' % 2 ^ 8 = Char.toNat 'Y' ∧
    v4l2_fourcc_be 'Y' 'U' 'Y' 'V' / 2 ^ 8 % 2 ^ 8 = Char.toNat 'U' ∧
    v4l2_fourcc_be 'Y' 'U' 'Y' 'V' / 2 ^ 16 % 2 ^ 8 = Char.toNat 'Y' ∧
    v4l2_fourcc_be 'Y' 'U' 'Y' 'V' / 2 ^ 24 % 2 ^ 7 = Char.toNat 'V' ∧
    Nat.testBit (v4l2_fourcc_be 'Y' 'U' 'Y' 'V') 31 = true :=
  c7_fourcc_round_trip 'Y' 'U' 'Y' 'V' (by decide) (by decide) (by decide) (by decide)

/-! ## `_device.py`: pixel-format identifier table

The `PixelFormat` IntEnum members, in source order (the last two are the
`PRIV_MAGIC` and `FLAG_PREMUL_ALPHA` members declared inside the enum). -/

def pixelFormatCodes : List Nat := [
  v4l2_fourcc 'R' 'G' 'B' '1',
  v4l2_fourcc 'R' '4' '4' '4',
  v4l2_fourcc 'A' 'R' '1' '2',
  v4l2_fourcc 'X' 'R' '1' '2',
  v4l2_fourcc 'R' 'A' '1' '2',
  v4l2_fourcc 'R' 'X' '1' '2',
  v4l2_fourcc 'A' 'B' '1' '2',
  v4l2_fourcc 'X' 'B' '1' '2',
  v4l2_fourcc 'G' 'A' '1' '2',
  v4l2_fourcc 'B' 'X' '1' '2',
  v4l2_fourcc 'R' 'G' 'B' 'O',
  v4l2_fourcc 'A' 'R' '1' '5',
  v4l2_fourcc 'X' 'R' '1' '5',
  v4l2_fourcc 'R' 'A' '1' '5',
  v4l2_fourcc 'R' 'X' '1' '5',
  v4l2_fourcc 'A' 'B' '1' '5',
  v4l2_fourcc 'X' 'B' '1' '5',
  v4l2_fourcc 'B' 'A' '1' '5',
  v4l2_fourcc 'B' 'X' '1' '5',
  v4l2_fourcc 'R' 'G' 'B' 'P',
  v4l2_fourcc 'R' 'G' 'B' 'Q',
  v4l2_fourcc_be 'A' 'R' '1' '5',
  v4l2_fourcc_be 'X' 'R' '1' '5',
  v4l2_fourcc 'R' 'G' 'B' 'R',
  v4l2_fourcc 'B' 'G' 'R' 'H',
  v4l2_fourcc 'B' 'G' 'R' '3',
  v4l2_fourcc 'R' 'G' 'B' '3',
  v4l2_fourcc 'B' 'G' 'R' '4',
  v4l2_fourcc 'A' 'R' '2' '4',
  v4l2_fourcc 'X' 'R' '2' '4',
  v4l2_fourcc 'R' 'A' '2' '4',
  v4l2_fourcc 'R' 'X' '2' '4',
  v4l2_fourcc 'R' 'G' 'B' '4',
  v4l2_fourcc 'A' 'B' '2' '4',
  v4l2_fourcc 'X' 'B' '2' '4',
  v4l2_fourcc 'B' 'A' '2' '4',
  v4l2_fourcc 'B' 'X' '2' '4',
  v4l2_fourcc 'G' 'R' 'E' 'Y',
  v4l2_fourcc 'Y' '0' '4' ' ',
  v4l2_fourcc 'Y' '0' '6' ' ',
  v4l2_fourcc 'Y' '1' '0' ' ',
  v4l2_fourcc 'Y' '1' '2' ' ',
  v4l2_fourcc 'Y' '1' '6' ' ',
  v4l2_fourcc_be 'Y' '1' '6' ' ',
  v4l2_fourcc 'Y' '1' '0' 'B',
  v4l2_fourcc 'Y' '1' '0' 'P',
  v4l2_fourcc 'P' 'A' 'L' '8',
  v4l2_fourcc 'U' 'V' '8' ' ',
  v4l2_fourcc 'Y' 'U' 'Y' 'V',
  v4l2_fourcc 'Y' 'Y' 'U' 'V',
  v4l2_fourcc 'Y' 'V' 'Y' 'U',
  v4l2_fourcc 'U' 'Y' 'V' 'Y',
  v4l2_fourcc 'V' 'Y' 'U' 'Y',
  v4l2_fourcc 'Y' '4' '1' 'P',
  v4l2_fourcc 'Y' '4' '4' '4',
  v4l2_fourcc 'Y' 'U' 'V' 'O',
  v4l2_fourcc 'Y' 'U' 'V' 'P',
  v4l2_fourcc 'Y' 'U' 'V' '4',
  v4l2_fourcc 'A' 'Y' 'U' 'V',
  v4l2_fourcc 'X' 'Y' 'U' 'V',
  v4l2_fourcc 'V' 'U' 'Y' 'A',
  v4l2_fourcc 'V' 'U' 'Y' 'X',
  v4l2_fourcc 'H' 'I' '2' '4',
  v4l2_fourcc 'H' 'M' '1' '2',
  v4l2_fourcc 'M' '4' '2' '0',
  v4l2_fourcc 'N' 'V' '1' '2',
  v4l2_fourcc 'N' 'V' '2' '1',
  v4l2_fourcc 'N' 'V' '1' '6',
  v4l2_fourcc 'N' 'V' '6' '1',
  v4l2_fourcc 'N' 'V' '2' '4',
  v4l2_fourcc 'N' 'V' '4' '2',
  v4l2_fourcc 'N' 'M' '1' '2',
  v4l2_fourcc 'N' 'M' '2' '1',
  v4l2_fourcc 'N' 'M' '1' '6',
  v4l2_fourcc 'N' 'M' '6' '1',
  v4l2_fourcc 'T' 'M' '1' '2',
  v4l2_fourcc 'V' 'M' '1' '2',
  v4l2_fourcc 'Y' 'U' 'V' '9',
  v4l2_fourcc 'Y' 'V' 'U' '9',
  v4l2_fourcc '4' '1' '1' 'P',
  v4l2_fourcc 'Y' 'U' '1' '2',
  v4l2_fourcc 'Y' 'V' '1' '2',
  v4l2_fourcc '4' '2' '2' 'P',
  v4l2_fourcc 'Y' 'M' '1' '2',
  v4l2_fourcc 'Y' 'M' '2' '1',
  v4l2_fourcc 'Y' 'M' '1' '6',
  v4l2_fourcc 'Y' 'M' '6' '1',
  v4l2_fourcc 'Y' 'M' '2' '4',
  v4l2_fourcc 'Y' 'M' '4' '2',
  v4l2_fourcc 'B' 'A' '8' '1',
  v4l2_fourcc 'G' 'B' 'R' 'G',
  v4l2_fourcc 'G' 'R' 'B' 'G',
  v4l2_fourcc 'R' 'G' 'G' 'B',
  v4l2_fourcc 'B' 'G' '1' '0',
  v4l2_fourcc 'G' 'B' '1' '0',
  v4l2_fourcc 'B' 'A' '1' '0',
  v4l2_fourcc 'R' 'G' '1' '0',
  v4l2_fourcc 'p' 'B' 'A' 'A',
  v4l2_fourcc 'p' 'G' 'A' 'A',
  v4l2_fourcc 'p' 'g' 'A' 'A',
  v4l2_fourcc 'p' 'R' 'A' 'A',
  v4l2_fourcc 'a' 'B' 'A' '8',
  v4l2_fourcc 'a' 'G' 'A' '8',
  v4l2_fourcc 'a' 'g' 'A' '8',
  v4l2_fourcc 'a' 'R' 'A' '8',
  v4l2_fourcc 'b' 'B' 'A' '8',
  v4l2_fourcc 'b' 'G' 'A' '8',
  v4l2_fourcc 'B' 'D' '1' '0',
  v4l2_fourcc 'b' 'R' 'A' '8',
  v4l2_fourcc 'B' 'G' '1' '2',
  v4l2_fourcc 'G' 'B' '1' '2',
  v4l2_fourcc 'B' 'A' '1' '2',
  v4l2_fourcc 'R' 'G' '1' '2',
  v4l2_fourcc 'p' 'B' 'C' 'C',
  v4l2_fourcc 'p' 'G' 'C' 'C',
  v4l2_fourcc 'p' 'g' 'C' 'C',
  v4l2_fourcc 'p' 'R' 'C' 'C',
  v4l2_fourcc 'p' 'B' 'E' 'E',
  v4l2_fourcc 'p' 'G' 'E' 'E',
  v4l2_fourcc 'p' 'g' 'E' 'E',
  v4l2_fourcc 'p' 'R' 'E' 'E',
  v4l2_fourcc 'B' 'Y' 'R' '2',
  v4l2_fourcc 'G' 'B' '1' '6',
  v4l2_fourcc 'G' 'R' '1' '6',
  v4l2_fourcc 'R' 'G' '1' '6',
  v4l2_fourcc 'H' 'S' 'V' '3',
  v4l2_fourcc 'H' 'S' 'V' '4',
  v4l2_fourcc 'M' 'J' 'P' 'G',
  v4l2_fourcc 'J' 'P' 'E' 'G',
  v4l2_fourcc 'd' 'v' 's' 'd',
  v4l2_fourcc 'M' 'P' 'E' 'G',
  v4l2_fourcc 'H' '2' '6' '4',
  v4l2_fourcc 'A' 'V' 'C' '1',
  v4l2_fourcc 'M' '2' '6' '4',
  v4l2_fourcc 'H' '2' '6' '3',
  v4l2_fourcc 'M' 'P' 'G' '1',
  v4l2_fourcc 'M' 'P' 'G' '2',
  v4l2_fourcc 'M' 'G' '2' 'S',
  v4l2_fourcc 'M' 'P' 'G' '4',
  v4l2_fourcc 'X' 'V' 'I' 'D',
  v4l2_fourcc 'V' 'C' '1' 'G',
  v4l2_fourcc 'V' 'C' '1' 'L',
  v4l2_fourcc 'V' 'P' '8' '0',
  v4l2_fourcc 'V' 'P' '9' '0',
  v4l2_fourcc 'H' 'E' 'V' 'C',
  v4l2_fourcc 'F' 'W' 'H' 'T',
  v4l2_fourcc 'S' 'F' 'W' 'H',
  v4l2_fourcc 'C' 'P' 'I' 'A',
  v4l2_fourcc 'W' 'N' 'V' 'A',
  v4l2_fourcc 'S' '9' '1' '0',
  v4l2_fourcc 'S' '9' '2' '0',
  v4l2_fourcc 'P' 'W' 'C' '1',
  v4l2_fourcc 'P' 'W' 'C' '2',
  v4l2_fourcc 'E' '6' '2' '5',
  v4l2_fourcc 'S' '5' '0' '1',
  v4l2_fourcc 'S' '5' '0' '5',
  v4l2_fourcc 'S' '5' '0' '8',
  v4l2_fourcc 'S' '5' '6' '1',
  v4l2_fourcc 'P' '2' '0' '7',
  v4l2_fourcc 'M' '3' '1' '0',
  v4l2_fourcc 'J' 'L' '2' '0',
  v4l2_fourcc 'S' 'O' 'N' 'X',
  v4l2_fourcc '9' '0' '5' 'C',
  v4l2_fourcc 'P' 'J' 'P' 'G',
  v4l2_fourcc 'O' '5' '1' '1',
  v4l2_fourcc 'O' '5' '1' '8',
  v4l2_fourcc 'S' '6' '8' '0',
  v4l2_fourcc 'T' 'M' '6' '0',
  v4l2_fourcc 'C' 'I' 'T' 'V',
  v4l2_fourcc 'K' 'O' 'N' 'I',
  v4l2_fourcc 'J' 'P' 'G' 'L',
  v4l2_fourcc 'S' '4' '0' '1',
  v4l2_fourcc 'S' '5' 'C' 'I',
  v4l2_fourcc 'Y' '8' 'I' ' ',
  v4l2_fourcc 'Y' '1' '2' 'I',
  v4l2_fourcc 'Z' '1' '6' ' ',
  v4l2_fourcc 'M' 'T' '2' '1',
  v4l2_fourcc 'I' 'N' 'Z' 'I',
  v4l2_fourcc 'S' 'T' '1' '2',
  v4l2_fourcc 'C' 'N' 'F' '4',
  v4l2_fourcc 'i' 'p' '3' 'b',
  v4l2_fourcc 'i' 'p' '3' 'g',
  v4l2_fourcc 'i' 'p' '3' 'G',
  v4l2_fourcc 'i' 'p' '3' 'r',
  0xfeedcafe,
  0x00000001]

/-! ## Python error and reply model -/

/-- `OSError` with its errno, as raised by a failing `ioctl`. -/
structure OSErr where
  errno : Nat
deriving DecidableEq

/-- The errno class the kernel uses for "no such entry" (enumeration
exhaustion). -/
def EINVAL : Nat := 22

/-- Exceptions that can escape the discovery code: an uncaught transport
`OSError`, the `ValueError` of an enum lookup on an unknown value, and the
`ZeroDivisionError` of `Fraction(n, 0)`. -/
inductive PyErr where
  | osError (e : OSErr)
  | valueError
  | zeroDivisionError
deriving DecidableEq

/-- Reply fields of `v4l2_fmtdesc` read by the loop body (the kernel fills
the submitted record in place; `index`/`type` echo the request key). -/
structure FmtReply where
  flags : Nat
  description : String
  pixelformat : Nat
  mbus_code : Nat
deriving DecidableEq

/-- Reply fields of `v4l2_frmsizeenum`.  The `m` union is modelled as both
of its views; the decoder branches on the sibling `type` discriminant before
reading either view (spec §4.2), so union aliasing is unobservable. -/
structure FrameSizeReply where
  type : Nat
  disc_width : Nat
  disc_height : Nat
  sw_min_width : Nat
  sw_max_width : Nat
  sw_step_width : Nat
  sw_min_height : Nat
  sw_max_height : Nat
  sw_step_height : Nat
deriving DecidableEq

/-- Reply fields of `v4l2_frmivalenum`, with the `m` union as both views. -/
structure FrameIntervalReply where
  type : Nat
  disc_numerator : Nat
  disc_denominator : Nat
  sw_min_numerator : Nat
  sw_min_denominator : Nat
  sw_max_numerator : Nat
  sw_max_denominator : Nat
  sw_step_numerator : Nat
  sw_step_denominator : Nat
deriving DecidableEq

namespace FrameSizeType

def DISCRETE : Nat := 1

def CONTINUOUS : Nat := 2

def STEPWISE : Nat := 3

end FrameSizeType

namespace FrameIntervalType

def DISCRETE : Nat := 1

def CONTINUOUS : Nat := 2

def STEPWISE : Nat := 3

end FrameIntervalType

/-! ## Typed values yielded by the enumerators -/

structure ImageFormat where
  type : Nat
  flags : Nat
  pixel_format : Nat
  description : String
  mbus_code : Nat
deriving DecidableEq

structure DiscreteFrameSize where
  pixel_format : Nat
  width : Nat
  height : Nat
deriving DecidableEq

structure StepwiseFrameSize where
  pixel_format : Nat
  min_width : Nat
  max_width : Nat
  step_width : Nat
  min_height : Nat
  max_height : Nat
  step_height : Nat
deriving DecidableEq

inductive FrameSize where
  | discrete (d : DiscreteFrameSize)
  | stepwise (s : StepwiseFrameSize)
deriving DecidableEq

structure DiscreteFrameInterval where
  pixel_format : Nat
  width : Nat
  height : Nat
  fraction : ℚ
deriving DecidableEq

/-- `DiscreteFrameInterval.__float__`: `fraction.denominator /
fraction.numerator` (Python float division, modelled as exact rational
division; both operands are exactly representable uint32 values). -/
def DiscreteFrameInterval.float (x : DiscreteFrameInterval) : ℚ :=
  (x.fraction.den : ℚ) / (x.fraction.num : ℚ)

structure StepwiseFrameInterval where
  pixel_format : Nat
  width : Nat
  height : Nat
  min : ℚ
  max : ℚ
  step : ℚ
deriving DecidableEq

inductive FrameInterval where
  | discrete (d : DiscreteFrameInterval)
  | stepwise (s : StepwiseFrameInterval)
deriving DecidableEq

/-! ## Decode steps (the loop bodies after a successful ioctl) -/

/-- One `iter_image_formats` iteration body: `PixelFormat(buf.pixelformat)`
raises `ValueError` when the code is not in the identifier table, otherwise
an `ImageFormat` is yielded.  (`ImageFormatDescriptionFlags(buf.flags)` is an
IntFlag with KEEP boundary and never fails; flags pass through.) -/
def decodeImageFormat (buffer_type : Nat) (r : FmtReply) : Except PyErr ImageFormat :=
  if r.pixelformat ∈ pixelFormatCodes then
    .ok ⟨buffer_type, r.flags, r.pixelformat, r.description, r.mbus_code⟩
  else
    .error .valueError

/-- One `iter_frame_sizes` iteration body: `FrameSizeType(buf.type)` raises
`ValueError` outside `{1, 2, 3}`; STEPWISE and DISCRETE replies yield one
value; a CONTINUOUS reply yields nothing and the loop moves on. -/
def decodeFrameSize (pixel_format : Nat) (r : FrameSizeReply) :
    Except PyErr (Option FrameSize) :=
  if r.type = FrameSizeType.DISCRETE ∨ r.type = FrameSizeType.CONTINUOUS ∨
      r.type = FrameSizeType.STEPWISE then
    if r.type = FrameSizeType.STEPWISE then
      .ok (some (.stepwise ⟨pixel_format, r.sw_min_width, r.sw_max_width,
        r.sw_step_width, r.sw_min_height, r.sw_max_height, r.sw_step_height⟩))
    else if r.type = FrameSizeType.DISCRETE then
      .ok (some (.discrete ⟨pixel_format, r.disc_width, r.disc_height⟩))
    else
      .ok none
  else
    .error .valueError

/-- Python's `Fraction(n, d)`: an exact (normalised) rational;
`ZeroDivisionError` when `d = 0`. -/
def Fraction (n d : Nat) : Except PyErr ℚ :=
  if d = 0 then .error .zeroDivisionError else .ok (mkRat n d)

/-- One `iter_frame_intervals` iteration body. -/
def decodeFrameInterval (pixel_format width height : Nat) (r : FrameIntervalReply) :
    Except PyErr (Option FrameInterval) :=
  if r.type = FrameIntervalType.DISCRETE ∨ r.type = FrameIntervalType.CONTINUOUS ∨
      r.type = FrameIntervalType.STEPWISE then
    if r.type = FrameIntervalType.DISCRETE then
      (Fraction r.disc_numerator r.disc_denominator).map fun f =>
        some (.discrete ⟨pixel_format, width, height, f⟩)
    else if r.type = FrameIntervalType.STEPWISE then
      do
        let fmin ← Fraction r.sw_min_numerator r.sw_min_denominator
        let fmax ← Fraction r.sw_max_numerator r.sw_max_denominator
        let fstep ← Fraction r.sw_step_numerator r.sw_step_denominator
        pure (some (.stepwise ⟨pixel_format, width, height, fmin, fmax, fstep⟩))
    else
      .ok none
  else
    .error .valueError

/-! ## The shared enumeration loop (spec §4.4) -/

/-- The index loop shared by the three enumerators: submit records with
index 0, 1, 2, …; on `OSError` `break` silently; propagate decode errors;
concatenate the values each successful reply yields.  `fuel` bounds how many
iterations the shallow embedding unrolls (the Python loop is unbounded). -/
def enumLoop {α β : Type} (step : Nat → Except OSErr α)
    (dec : α → Except PyErr (List β)) : Nat → Nat → Except PyErr (List β)
  | _, 0 => .ok []
  | index, fuel + 1 =>
    match step index with
    | .error _ => .ok []
    | .ok r =>
      match dec r with
      | .error e => .error e
      | .ok vs => (enumLoop step dec (index + 1) fuel).map (vs ++ ·)

/-- `iter_image_formats(fd, buffer_type)`: the transport stub maps the
submitted record's key fields `(type, index)` to the kernel's response. -/
def iter_image_formats (transport : Nat → Nat → Except OSErr FmtReply)
    (buffer_type : Nat) (fuel : Nat) : Except PyErr (List ImageFormat) :=
  enumLoop (transport buffer_type)
    (fun r => (decodeImageFormat buffer_type r).map fun v => [v]) 0 fuel

/-- `iter_frame_sizes(fd, pixel_format)`: keyed by `(pixel_format, index)`. -/
def iter_frame_sizes (transport : Nat → Nat → Except OSErr FrameSizeReply)
    (pixel_format : Nat) (fuel : Nat) : Except PyErr (List FrameSize) :=
  enumLoop (transport pixel_format)
    (fun r => (decodeFrameSize pixel_format r).map Option.toList) 0 fuel

/-- `iter_frame_intervals(fd, pixel_format, width, height)`: keyed by
`(pixel_format, width, height, index)`. -/
def iter_frame_intervals
    (transport : Nat → Nat → Nat → Nat → Except OSErr FrameIntervalReply)
    (pixel_format width height : Nat) (fuel : Nat) :
    Except PyErr (List FrameInterval) :=
  enumLoop (transport pixel_format width height)
    (fun r => (decodeFrameInterval pixel_format width height r).map Option.toList) 0 fuel

/-! ## Behaviour of the enumeration loop -/

theorem flatMap_singleton_eq_map {α β : Type} (f : α → β) (l : List α) :
    l.flatMap (fun x => [f x]) = l.map f := by
  induction l with
  | nil => rfl
  | cons a t ih => simp [ih]

/-- After `k` successful, decodable replies, an `OSError` of any errno at
index `k` silently ends the loop with the values collected so far. -/
theorem enumLoop_run {α β : Type} (step : Nat → Except OSErr α)
    (dec : α → Except PyErr (List β)) (rs : Nat → α) (vss : Nat → List β)
    (k : Nat) (e : OSErr)
    (hok : ∀ i, i < k → step i = .ok (rs i))
    (hdec : ∀ i, i < k → dec (rs i) = .ok (vss i))
    (herr : step k = .error e) :
    ∀ fuel j, j ≤ k → k - j < fuel →
      enumLoop step dec j fuel = .ok ((List.range' j (k - j)).flatMap vss) := by
  intro fuel
  induction fuel with
  | zero => intro j hj hf; omega
  | succ fuel ih =>
    intro j hj hf
    by_cases hjk : j = k
    · subst hjk
      simp [enumLoop, herr]
    · have hjlt : j < k := by omega
      simp only [enumLoop, hok j hjlt, hdec j hjlt]
      rw [ih (j + 1) (by omega) (by omega)]
      rw [show k - j = (k - (j + 1)) + 1 from by omega, List.range'_succ]
      simp [Except.map]

/-- Specialisation: each reply yields exactly one value. -/
theorem enumLoop_run_map {α β : Type} (step : Nat → Except OSErr α)
    (dec : α → Except PyErr (List β)) (rs : Nat → α) (v : Nat → β)
    (k fuel : Nat) (e : OSErr)
    (hok : ∀ i, i < k → step i = .ok (rs i))
    (hdec : ∀ i, i < k → dec (rs i) = .ok [v i])
    (herr : step k = .error e) (hfuel : k < fuel) :
    enumLoop step dec 0 fuel = .ok ((List.range k).map v) := by
  rw [enumLoop_run step dec rs (fun i => [v i]) k e hok hdec herr fuel 0
    (by omega) (by omega)]
  rw [Nat.sub_zero, ← List.range_eq_range', flatMap_singleton_eq_map]

/-- C4: for each of the three enumeration families, `N` successful
well-formed replies for indices `0..N-1` followed by the exhaustion signal
at index `N` make the enumerator yield exactly the `N` decoded values, in
index order from index 0, and stop without reporting an error. -/
theorem c4_enumeration_completes
    (N fuel : Nat) (hfuel : N < fuel) (bt pf w h : Nat)
    (ft : Nat → Nat → Except OSErr FmtReply)
    (rf : Nat → FmtReply) (vf : Nat → ImageFormat)
    (st : Nat → Nat → Except OSErr FrameSizeReply)
    (rs : Nat → FrameSizeReply) (vs : Nat → FrameSize)
    (it : Nat → Nat → Nat → Nat → Except OSErr FrameIntervalReply)
    (ri : Nat → FrameIntervalReply) (vi : Nat → FrameInterval)
    (hf1 : ∀ i, i < N → ft bt i = .ok (rf i))
    (hf2 : ∀ i, i < N → decodeImageFormat bt (rf i) = .ok (vf i))
    (hf3 : ft bt N = .error ⟨EINVAL⟩)
    (hs1 : ∀ i, i < N → st pf i = .ok (rs i))
    (hs2 : ∀ i, i < N → decodeFrameSize pf (rs i) = .ok (some (vs i)))
    (hs3 : st pf N = .error ⟨EINVAL⟩)
    (hi1 : ∀ i, i < N → it pf w h i = .ok (ri i))
    (hi2 : ∀ i, i < N → decodeFrameInterval pf w h (ri i) = .ok (some (vi i)))
    (hi3 : it pf w h N = .error ⟨EINVAL⟩) :
    iter_image_formats ft bt fuel = .ok ((List.range N).map vf) ∧
    iter_frame_sizes st pf fuel = .ok ((List.range N).map vs) ∧
    iter_frame_intervals it pf w h fuel = .ok ((List.range N).map vi) := by
  refine ⟨?_, ?_, ?_⟩
  · exact enumLoop_run_map (ft bt) _ rf vf N fuel ⟨EINVAL⟩ hf1
      (fun i hi => by rw [hf2 i hi]; rfl) hf3 hfuel
  · exact enumLoop_run_map (st pf) _ rs vs N fuel ⟨EINVAL⟩ hs1
      (fun i hi => by rw [hs2 i hi]; rfl) hs3 hfuel
  · exact enumLoop_run_map (it pf w h) _ ri vi N fuel ⟨EINVAL⟩ hi1
      (fun i hi => by rw [hi2 i hi]; rfl) hi3 hfuel

/-- Witness for `c4_enumeration_completes`: one YUYV format, one discrete
640x480 size, one discrete 1/30 interval, then exhaustion. -/
theorem c4_enumeration_completes_witness :
    iter_image_formats
        (fun _ i => if i = 0
          then .ok ⟨0, "YUYV 4:2:2", v4l2_fourcc 'Y' 'U' 'Y' 'V', 0⟩
          else .error ⟨EINVAL⟩) 1 2
      = .ok ((List.range 1).map fun _ =>
          (⟨1, 0, v4l2_fourcc 'Y' 'U' 'Y' 'V', "YUYV 4:2:2", 0⟩ : ImageFormat)) ∧
    iter_frame_sizes
        (fun _ i => if i = 0
          then .ok ⟨1, 640, 480, 0, 0, 0, 0, 0, 0⟩
          else .error ⟨EINVAL⟩) (v4l2_fourcc 'Y' 'U' 'Y' 'V') 2
      = .ok ((List.range 1).map fun _ =>
          FrameSize.discrete ⟨v4l2_fourcc 'Y' 'U' 'Y' 'V', 640, 480⟩) ∧
    iter_frame_intervals
        (fun _ _ _ i => if i = 0
          then .ok ⟨1, 1, 30, 0, 0, 0, 0, 0, 0⟩
          else .error ⟨EINVAL⟩) (v4l2_fourcc 'Y' 'U' 'Y' 'V') 640 480 2
      = .ok ((List.range 1).map fun _ =>
          FrameInterval.discrete ⟨v4l2_fourcc 'Y' 'U' 'Y' 'V', 640, 480, mkRat 1 30⟩) :=
  c4_enumeration_completes 1 2 (by omega) 1 (v4l2_fourcc 'Y' 'U' 'Y' 'V') 640 480
    _ (fun _ => ⟨0, "YUYV 4:2:2", v4l2_fourcc 'Y' 'U' 'Y' 'V', 0⟩)
    (fun _ => ⟨1, 0, v4l2_fourcc 'Y' 'U' 'Y' 'V', "YUYV 4:2:2", 0⟩)
    _ (fun _ => ⟨1, 640, 480, 0, 0, 0, 0, 0, 0⟩)
    (fun _ => .discrete ⟨v4l2_fourcc 'Y' 'U' 'Y' 'V', 640, 480⟩)
    _ (fun _ => ⟨1, 1, 30, 0, 0, 0, 0, 0, 0⟩)
    (fun _ => .discrete ⟨v4l2_fourcc 'Y' 'U' 'Y' 'V', 640, 480, mkRat 1 30⟩)
    (fun i hi => by cases i with | zero => rfl | succ n => omega)
    (fun i hi => by
      cases i with
      | zero => unfold decodeImageFormat; rw [if_pos (by decide)]
      | succ n => omega)
    rfl
    (fun i hi => by cases i with | zero => rfl | succ n => omega)
    (fun i hi => by cases i with | zero => rfl | succ n => omega)
    rfl
    (fun i hi => by cases i with | zero => rfl | succ n => omega)
    (fun i hi => by cases i with | zero => rfl | succ n => omega)
    rfl

/-- Failing-input transport for the format family: a good reply at index 0,
a non-exhaustion fault (errno 5, EIO) at index 1, further entries beyond. -/
def c2fmtT : Nat → Nat → Except OSErr FmtReply := fun _ i =>
  if i = 1 then .error ⟨5⟩
  else .ok ⟨0, "YUYV 4:2:2", v4l2_fourcc 'Y' 'U' 'Y' 'V', 0⟩

/-- Failing-input transport for the frame-size family. -/
def c2sizeT : Nat → Nat → Except OSErr FrameSizeReply := fun _ i =>
  if i = 1 then .error ⟨5⟩ else .ok ⟨1, 640, 480, 0, 0, 0, 0, 0, 0⟩

/-- Failing-input transport for the frame-interval family. -/
def c2intT : Nat → Nat → Nat → Nat → Except OSErr FrameIntervalReply := fun _ _ _ i =>
  if i = 1 then .error ⟨5⟩ else .ok ⟨1, 1, 30, 0, 0, 0, 0, 0, 0⟩

/-- C2 (code bug): on a transport whose reply at index 0 succeeds, whose
reply at index 1 is a fault outside the "no more entries" class (errno 5 =
EIO, and 5 ≠ EINVAL), and which still has entries at index 2, every one of
the three enumerators returns a successful, silently truncated one-element
result — `except OSError: break` treats the fault as completed enumeration —
instead of yielding the first value and then propagating a hard error as the
claim requires. -/
theorem c2_fault_silently_truncates :
    (5 : Nat) ≠ EINVAL ∧
    iter_image_formats c2fmtT 1 4
      = .ok [⟨1, 0, v4l2_fourcc 'Y' 'U' 'Y' 'V', "YUYV 4:2:2", 0⟩] ∧
    c2fmtT 1 2 = .ok ⟨0, "YUYV 4:2:2", v4l2_fourcc 'Y' 'U' 'Y' 'V', 0⟩ ∧
    iter_frame_sizes c2sizeT (v4l2_fourcc 'Y' 'U' 'Y' 'V') 4
      = .ok [.discrete ⟨v4l2_fourcc 'Y' 'U' 'Y' 'V', 640, 480⟩] ∧
    c2sizeT (v4l2_fourcc 'Y' 'U' 'Y' 'V') 2 = .ok ⟨1, 640, 480, 0, 0, 0, 0, 0, 0⟩ ∧
    iter_frame_intervals c2intT (v4l2_fourcc 'Y' 'U' 'Y' 'V') 640 480 4
      = .ok [.discrete ⟨v4l2_fourcc 'Y' 'U' 'Y' 'V', 640, 480, mkRat 1 30⟩] ∧
    c2intT (v4l2_fourcc 'Y' 'U' 'Y' 'V') 640 480 2 = .ok ⟨1, 1, 30, 0, 0, 0, 0, 0, 0⟩ := by
  refine ⟨by decide, ?_, rfl, ?_, rfl, ?_, rfl⟩
  · rfl
  · rfl
  · rfl

/-- The reference behaviour behind the C2 bug, in general: on a transport
fault at entry `k` with any errno — in particular one that is *not* the
"no more entries" class — each enumerator yields the first `k` decoded
values and then terminates silently as if enumeration had completed,
reporting no error to its caller. -/
theorem c2_fault_conflated_with_exhaustion
    (k fuel : Nat) (hfuel : k < fuel) (bt pf w h : Nat)
    (ft : Nat → Nat → Except OSErr FmtReply)
    (rf : Nat → FmtReply) (vf : Nat → ImageFormat)
    (st : Nat → Nat → Except OSErr FrameSizeReply)
    (rs : Nat → FrameSizeReply) (vs : Nat → FrameSize)
    (it : Nat → Nat → Nat → Nat → Except OSErr FrameIntervalReply)
    (ri : Nat → FrameIntervalReply) (vi : Nat → FrameInterval)
    (e₁ e₂ e₃ : OSErr)
    (hne₁ : e₁.errno ≠ EINVAL) (hne₂ : e₂.errno ≠ EINVAL) (hne₃ : e₃.errno ≠ EINVAL)
    (hf1 : ∀ i, i < k → ft bt i = .ok (rf i))
    (hf2 : ∀ i, i < k → decodeImageFormat bt (rf i) = .ok (vf i))
    (hf3 : ft bt k = .error e₁)
    (hs1 : ∀ i, i < k → st pf i = .ok (rs i))
    (hs2 : ∀ i, i < k → decodeFrameSize pf (rs i) = .ok (some (vs i)))
    (hs3 : st pf k = .error e₂)
    (hi1 : ∀ i, i < k → it pf w h i = .ok (ri i))
    (hi2 : ∀ i, i < k → decodeFrameInterval pf w h (ri i) = .ok (some (vi i)))
    (hi3 : it pf w h k = .error e₃) :
    iter_image_formats ft bt fuel = .ok ((List.range k).map vf) ∧
    iter_frame_sizes st pf fuel = .ok ((List.range k).map vs) ∧
    iter_frame_intervals it pf w h fuel = .ok ((List.range k).map vi) := by
  refine ⟨?_, ?_, ?_⟩
  · exact enumLoop_run_map (ft bt) _ rf vf k fuel e₁ hf1
      (fun i hi => by rw [hf2 i hi]; rfl) hf3 hfuel
  · exact enumLoop_run_map (st pf) _ rs vs k fuel e₂ hs1
      (fun i hi => by rw [hs2 i hi]; rfl) hs3 hfuel
  · exact enumLoop_run_map (it pf w h) _ ri vi k fuel e₃ hi1
      (fun i hi => by rw [hi2 i hi]; rfl) hi3 hfuel

/-- Witness for `c2_fault_conflated_with_exhaustion`: one good entry, then an
EIO fault, for each family. -/
theorem c2_fault_conflated_witness :
    iter_image_formats
        (fun _ i => if i = 0
          then .ok ⟨0, "YUYV 4:2:2", v4l2_fourcc 'Y' 'U' 'Y' 'V', 0⟩
          else .error ⟨5⟩) 1 2
      = .ok ((List.range 1).map fun _ =>
          (⟨1, 0, v4l2_fourcc 'Y' 'U' 'Y' 'V', "YUYV 4:2:2", 0⟩ : ImageFormat)) ∧
    iter_frame_sizes
        (fun _ i => if i = 0
          then .ok ⟨1, 640, 480, 0, 0, 0, 0, 0, 0⟩
          else .error ⟨5⟩) (v4l2_fourcc 'Y' 'U' 'Y' 'V') 2
      = .ok ((List.range 1).map fun _ =>
          FrameSize.discrete ⟨v4l2_fourcc 'Y' 'U' 'Y' 'V', 640, 480⟩) ∧
    iter_frame_intervals
        (fun _ _ _ i => if i = 0
          then .ok ⟨1, 1, 30, 0, 0, 0, 0, 0, 0⟩
          else .error ⟨5⟩) (v4l2_fourcc 'Y' 'U' 'Y' 'V') 640 480 2
      = .ok ((List.range 1).map fun _ =>
          FrameInterval.discrete ⟨v4l2_fourcc 'Y' 'U' 'Y' 'V', 640, 480, mkRat 1 30⟩) :=
  c2_fault_conflated_with_exhaustion 1 2 (by omega) 1 (v4l2_fourcc 'Y' 'U' 'Y' 'V') 640 480
    _ (fun _ => ⟨0, "YUYV 4:2:2", v4l2_fourcc 'Y' 'U' 'Y' 'V', 0⟩)
    (fun _ => ⟨1, 0, v4l2_fourcc 'Y' 'U' 'Y' 'V', "YUYV 4:2:2", 0⟩)
    _ (fun _ => ⟨1, 640, 480, 0, 0, 0, 0, 0, 0⟩)
    (fun _ => .discrete ⟨v4l2_fourcc 'Y' 'U' 'Y' 'V', 640, 480⟩)
    _ (fun _ => ⟨1, 1, 30, 0, 0, 0, 0, 0, 0⟩)
    (fun _ => .discrete ⟨v4l2_fourcc 'Y' 'U' 'Y' 'V', 640, 480, mkRat 1 30⟩)
    ⟨5⟩ ⟨5⟩ ⟨5⟩ (by decide) (by decide) (by decide)
    (fun i hi => by cases i with | zero => rfl | succ n => omega)
    (fun i hi => by
      cases i with
      | zero => unfold decodeImageFormat; rw [if_pos (by decide)]
      | succ n => omega)
    rfl
    (fun i hi => by cases i with | zero => rfl | succ n => omega)
    (fun i hi => by cases i with | zero => rfl | succ n => omega)
    rfl
    (fun i hi => by cases i with | zero => rfl | succ n => omega)
    (fun i hi => by cases i with | zero => rfl | succ n => omega)
    rfl

/-- C9: a frame-size reply carrying the CONTINUOUS type tag (value 2) yields
no value at its index, but the loop continues at the next index; the
enumeration completes with exactly the values of the other replies, so a
continuous reply contributes nothing to the snapshot's frame-size
collection (and hence is never a key of the frame-interval probes). -/
theorem c9_continuous_frame_size_skipped
    (st : Nat → Nat → Except OSErr FrameSizeReply) (pf : Nat)
    (rs : Nat → FrameSizeReply) (os : Nat → Option FrameSize)
    (k j fuel : Nat) (e : OSErr)
    (hok : ∀ i, i < k → st pf i = .ok (rs i))
    (hdec : ∀ i, i < k → decodeFrameSize pf (rs i) = .ok (os i))
    (herr : st pf k = .error e) (hfuel : k < fuel)
    (hj : j < k) (hcont : (rs j).type = FrameSizeType.CONTINUOUS) :
    decodeFrameSize pf (rs j) = .ok none ∧
    os j = none ∧
    iter_frame_sizes st pf fuel
      = .ok ((List.range k).flatMap fun i => (os i).toList) := by
  have h1 : decodeFrameSize pf (rs j) = .ok none := by
    unfold decodeFrameSize
    rw [hcont]
    rfl
  have h2 : os j = none := by
    have h3 := hdec j hj
    rw [h1] at h3
    exact (Except.ok.inj h3).symm
  refine ⟨h1, h2, ?_⟩
  unfold iter_frame_sizes
  rw [enumLoop_run (st pf) _ rs (fun i => (os i).toList) k e hok
    (fun i hi => by rw [hdec i hi]; rfl) herr fuel 0 (by omega) (by omega)]
  rw [Nat.sub_zero, ← List.range_eq_range']

/-- Witness for `c9_continuous_frame_size_skipped`: a discrete reply, a
continuous reply, a second discrete reply, then exhaustion. -/
theorem c9_continuous_frame_size_skipped_witness :
    decodeFrameSize (v4l2_fourcc 'G' 'R' 'E' 'Y')
        ((fun i => if i = 0 then (⟨1, 640, 480, 0, 0, 0, 0, 0, 0⟩ : FrameSizeReply)
          else if i = 1 then ⟨2, 0, 0, 0, 0, 0, 0, 0, 0⟩
          else ⟨1, 320, 240, 0, 0, 0, 0, 0, 0⟩) 1)
      = .ok none ∧
    (fun i => if i = 0
        then some (FrameSize.discrete ⟨v4l2_fourcc 'G' 'R' 'E' 'Y', 640, 480⟩)
        else if i = 1 then none
        else some (FrameSize.discrete ⟨v4l2_fourcc 'G' 'R' 'E' 'Y', 320, 240⟩)) 1
      = none ∧
    iter_frame_sizes
        (fun _ i => if i = 0 then .ok ⟨1, 640, 480, 0, 0, 0, 0, 0, 0⟩
          else if i = 1 then .ok ⟨2, 0, 0, 0, 0, 0, 0, 0, 0⟩
          else if i = 2 then .ok ⟨1, 320, 240, 0, 0, 0, 0, 0, 0⟩
          else .error ⟨EINVAL⟩) (v4l2_fourcc 'G' 'R' 'E' 'Y') 4
      = .ok ((List.range 3).flatMap fun i =>
          ((fun i => if i = 0
              then some (FrameSize.discrete ⟨v4l2_fourcc 'G' 'R' 'E' 'Y', 640, 480⟩)
              else if i = 1 then none
              else some (FrameSize.discrete ⟨v4l2_fourcc 'G' 'R' 'E' 'Y', 320, 240⟩)) i).toList) :=
  c9_continuous_frame_size_skipped
    (fun _ i => if i = 0 then .ok ⟨1, 640, 480, 0, 0, 0, 0, 0, 0⟩
      else if i = 1 then .ok ⟨2, 0, 0, 0, 0, 0, 0, 0, 0⟩
      else if i = 2 then .ok ⟨1, 320, 240, 0, 0, 0, 0, 0, 0⟩
      else .error ⟨EINVAL⟩)
    (v4l2_fourcc 'G' 'R' 'E' 'Y')
    (fun i => if i = 0 then ⟨1, 640, 480, 0, 0, 0, 0, 0, 0⟩
      else if i = 1 then ⟨2, 0, 0, 0, 0, 0, 0, 0, 0⟩
      else ⟨1, 320, 240, 0, 0, 0, 0, 0, 0⟩)
    (fun i => if i = 0
      then some (FrameSize.discrete ⟨v4l2_fourcc 'G' 'R' 'E' 'Y', 640, 480⟩)
      else if i = 1 then none
      else some (FrameSize.discrete ⟨v4l2_fourcc 'G' 'R' 'E' 'Y', 320, 240⟩))
    3 1 4 ⟨EINVAL⟩
    (fun i hi => by interval_cases i <;> rfl)
    (fun i hi => by interval_cases i <;> rfl)
    rfl (by omega) (by omega) rfl

/-- C6: a discrete frame-interval reply with positive numerator and
denominator decodes to the exact rational numerator/denominator (stored as a
rational, never floating point), and the derived float view is
denominator/numerator — e.g. 30 for the duration 1/30 — not
numerator/denominator. -/
theorem c6_rational_duration_preserved (pf w h : Nat) (r : FrameIntervalReply)
    (htype : r.type = FrameIntervalType.DISCRETE)
    (hnum : 0 < r.disc_numerator) (hden : 0 < r.disc_denominator) :
    decodeFrameInterval pf w h r
      = .ok (some (.discrete ⟨pf, w, h, mkRat r.disc_numerator r.disc_denominator⟩)) ∧
    (mkRat r.disc_numerator r.disc_denominator : ℚ)
      = (r.disc_numerator : ℚ) / (r.disc_denominator : ℚ) ∧
    DiscreteFrameInterval.float ⟨pf, w, h, mkRat r.disc_numerator r.disc_denominator⟩
      = (r.disc_denominator : ℚ) / (r.disc_numerator : ℚ) := by
  have hd0 : r.disc_denominator ≠ 0 := by omega
  have hval : (mkRat r.disc_numerator r.disc_denominator : ℚ)
      = (r.disc_numerator : ℚ) / (r.disc_denominator : ℚ) := by
    rw [Rat.mkRat_eq_divInt, Rat.divInt_eq_div]
    push_cast
    ring
  refine ⟨?_, hval, ?_⟩
  · unfold decodeFrameInterval Fraction
    rw [htype, if_neg hd0]
    rfl
  · set q := mkRat (r.disc_numerator : Int) r.disc_denominator with hq
    show (q.den : ℚ) / (q.num : ℚ) = _
    calc (q.den : ℚ) / (q.num : ℚ)
        = ((q.num : ℚ) / (q.den : ℚ))⁻¹ := (inv_div _ _).symm
      _ = q⁻¹ := by rw [Rat.num_div_den]
      _ = ((r.disc_numerator : ℚ) / (r.disc_denominator : ℚ))⁻¹ := by rw [← hval]
      _ = (r.disc_denominator : ℚ) / (r.disc_numerator : ℚ) := by rw [inv_div]

/-- Witness for `c6_rational_duration_preserved` at the reply 1/30. -/
theorem c6_rational_duration_preserved_witness :
    decodeFrameInterval (v4l2_fourcc 'Y' 'U' 'Y' 'V') 640 480
        ⟨1, 1, 30, 0, 0, 0, 0, 0, 0⟩
      = .ok (some (.discrete ⟨v4l2_fourcc 'Y' 'U' 'Y' 'V', 640, 480, mkRat 1 30⟩)) ∧
    (mkRat 1 30 : ℚ) = ((1 : Nat) : ℚ) / ((30 : Nat) : ℚ) ∧
    DiscreteFrameInterval.float ⟨v4l2_fourcc 'Y' 'U' 'Y' 'V', 640, 480, mkRat 1 30⟩
      = ((30 : Nat) : ℚ) / ((1 : Nat) : ℚ) :=
  c6_rational_duration_preserved (v4l2_fourcc 'Y' 'U' 'Y' 'V') 640 480
    ⟨1, 1, 30, 0, 0, 0, 0, 0, 0⟩ rfl (by decide) (by decide)

/-! ## `DeviceInfo.from_file`: the capability snapshot -/

/-- Reply of the capability query, text fields already decoded. -/
structure CapReply where
  driver : String
  card : String
  bus_info : String
  version : Nat
  capabilities : Nat
  device_caps : Nat
deriving DecidableEq

/-- IntFlag membership `flag in caps`: all of `flag`'s bits set in `caps`. -/
def capMem (caps flag : Nat) : Bool := caps &&& flag == flag

/-- Each `BufferType` tag paired with the same-named `Capabilities` flag
(the name correspondence used by `device_buffer_types`), in declaration
order. -/
def bufferTypeCapability : List (Nat × Nat) :=
  [(1, 0x1), (2, 0x2), (3, 0x4), (4, 0x10), (5, 0x20), (6, 0x40), (7, 0x80),
   (8, 0x200), (9, 0x1000), (10, 0x2000), (11, 0x100000), (12, 0x400000),
   (13, 0x800000), (14, 0x8000000)]

/-- `supported_buffer_types`, as listed in the source. -/
def supported_buffer_types : List Nat := [1, 9, 2, 10, 3, 11, 12, 13, 14]

/-- `supported_buffer_types & device_buffer_types`.  Python iterates this
set in an unspecified hash order; the model fixes the `BufferType`
declaration order (no claim proved here depends on the order). -/
def probedBufferTypes (device_caps : Nat) : List Nat :=
  (bufferTypeCapability.filter fun p =>
    capMem device_caps p.2 && supported_buffer_types.contains p.1).map (·.1)

/-- Python `set.add`, tracked in first-seen order. -/
def insertNew (l : List Nat) (x : Nat) : List Nat :=
  if x ∈ l then l else l ++ [x]

/-- Snapshot step 3: run the format enumerator over every probed buffer
type, concatenating the yielded formats. -/
def collectImageFormats (fmtT : Nat → Nat → Except OSErr FmtReply)
    (device_caps fuel : Nat) : Except PyErr (List ImageFormat) :=
  (probedBufferTypes device_caps).foldlM
    (fun acc bt => (iter_image_formats fmtT bt fuel).map (acc ++ ·)) []

/-- The distinct pixel formats referenced by the collected formats. -/
def pixelFormatsOf (formats : List ImageFormat) : List Nat :=
  formats.foldl (fun acc f => insertNew acc f.pixel_format) []

/-- Snapshot step 4: run the frame-size enumerator for every distinct pixel
format. -/
def collectFrameSizes (sizeT : Nat → Nat → Except OSErr FrameSizeReply)
    (pfs : List Nat) (fuel : Nat) : Except PyErr (List FrameSize) :=
  pfs.foldlM (fun acc pf => (iter_frame_sizes sizeT pf fuel).map (acc ++ ·)) []

/-- Snapshot step 5: run the frame-interval enumerator for every *discrete*
frame size, keyed by its pixel format, width and height; stepwise sizes
contribute nothing and trigger no enumeration. -/
def collectFrameIntervals
    (intT : Nat → Nat → Nat → Nat → Except OSErr FrameIntervalReply)
    (sizes : List FrameSize) (fuel : Nat) : Except PyErr (List FrameInterval) :=
  sizes.foldlM
    (fun acc fs => match fs with
      | .discrete d =>
        (iter_frame_intervals intT d.pixel_format d.width d.height fuel).map (acc ++ ·)
      | .stepwise _ => .ok acc) []

structure DeviceInfo where
  driver : String
  card : String
  bus_info : String
  version : Nat × Nat × Nat
  capabilities : Nat
  device_capabilities : Nat
  image_formats : List ImageFormat
  frame_sizes : List FrameSize
  frame_intervals : List FrameInterval
deriving DecidableEq

/-- `DeviceInfo.from_file`: one capability query, the three enumeration
stages, then assembly.  A failing capability ioctl propagates as an
uncaught `OSError`; a decode fault in any stage aborts the snapshot. -/
def DeviceInfo.from_file (cap : Except OSErr CapReply)
    (fmtT : Nat → Nat → Except OSErr FmtReply)
    (sizeT : Nat → Nat → Except OSErr FrameSizeReply)
    (intT : Nat → Nat → Nat → Nat → Except OSErr FrameIntervalReply)
    (fuel : Nat) : Except PyErr DeviceInfo :=
  match cap with
  | .error e => .error (.osError e)
  | .ok buf => do
    let image_formats ← collectImageFormats fmtT buf.device_caps fuel
    let frame_sizes ← collectFrameSizes sizeT (pixelFormatsOf image_formats) fuel
    let frame_intervals ← collectFrameIntervals intT frame_sizes fuel
    pure {
      driver := buf.driver
      card := buf.card
      bus_info := buf.bus_info
      version := (buf.version >>> 16 &&& 0xFF, buf.version >>> 8 &&& 0xFF,
        buf.version &&& 0xFF)
      capabilities := buf.capabilities
      device_capabilities := buf.device_caps
      image_formats := image_formats
      frame_sizes := frame_sizes
      frame_intervals := frame_intervals }

/-! ## `Device.__enter__` resource handling -/

structure Device where
  path : String
  fd : Option Nat
  info : Option DeviceInfo

/-- `Device.from_file` / `Device.__init__`: path stored, no descriptor. -/
def Device.from_file (path : String) : Device := ⟨path, none, none⟩

/-- `Device.__enter__` under Python `with`-statement semantics: `open`
allocates a fresh descriptor `newFd`, then the capability probe
(`DeviceInfo.from_file`) runs on it.  `__enter__` has no try/finally and
Python does not invoke `__exit__` when `__enter__` raises, so an exception
from the probe propagates with the descriptor still open.  The first
component is the result handed to the `with` statement (`none` models the
source's fall-through `return None` when `self.fd` is already set); the
second lists the descriptors opened by this call that are still open when
control leaves `__enter__`. -/
def Device.enter (dev : Device) (newFd : Nat)
    (probe : Nat → Except PyErr DeviceInfo) :
    Except PyErr (Option Device) × List Nat :=
  match dev.fd with
  | some _ => (.ok none, [])
  | none =>
    match probe newFd with
    | .ok i => (.ok (some { dev with fd := some newFd, info := some i }), [newFd])
    | .error e => (.error e, [newFd])

/-! ## Aggregation lemmas -/

theorem collectFrameIntervals_eq
    (intT : Nat → Nat → Nat → Nat → Except OSErr FrameIntervalReply)
    (fuel : Nat) (ivs : DiscreteFrameSize → List FrameInterval)
    (sizes : List FrameSize)
    (hiv : ∀ d, FrameSize.discrete d ∈ sizes →
      iter_frame_intervals intT d.pixel_format d.width d.height fuel = .ok (ivs d)) :
    collectFrameIntervals intT sizes fuel
      = .ok (sizes.flatMap fun fs => match fs with
          | .discrete d => ivs d
          | .stepwise _ => []) := by
  unfold collectFrameIntervals
  suffices h : ∀ acc : List FrameInterval,
      sizes.foldlM
        (fun acc fs => match fs with
          | FrameSize.discrete d =>
            (iter_frame_intervals intT d.pixel_format d.width d.height fuel).map
              (acc ++ ·)
          | FrameSize.stepwise _ => .ok acc) acc
      = .ok (acc ++ sizes.flatMap fun fs => match fs with
          | FrameSize.discrete d => ivs d
          | FrameSize.stepwise _ => []) by
    simpa using h []
  induction sizes with
  | nil => intro acc; simp [List.foldlM, pure, Except.pure]
  | cons fs rest ih =>
    have hiv' : ∀ d, FrameSize.discrete d ∈ rest →
        iter_frame_intervals intT d.pixel_format d.width d.height fuel = .ok (ivs d) :=
      fun d hd => hiv d (List.mem_cons_of_mem _ hd)
    have ih' := ih hiv'
    intro acc
    cases fs with
    | discrete d =>
      have hstep : (iter_frame_intervals intT d.pixel_format d.width d.height fuel).map
          (fun x => acc ++ x) = Except.ok (acc ++ ivs d) := by
        rw [hiv d (List.mem_cons_self _ _)]
        rfl
      rw [List.foldlM_cons]
      dsimp only
      rw [hstep]
      show rest.foldlM _ (acc ++ ivs d) = _
      rw [ih' (acc ++ ivs d)]
      simp
    | stepwise s =>
      rw [List.foldlM_cons]
      dsimp only
      show rest.foldlM _ acc = _
      rw [ih' acc]
      simp

/-- The interval stage consults the interval transport only at the keys of
the discrete frame sizes: transports that agree there are
interchangeable. -/
theorem collectFrameIntervals_congr
    (intT intT' : Nat → Nat → Nat → Nat → Except OSErr FrameIntervalReply)
    (fuel : Nat) (sizes : List FrameSize)
    (hagree : ∀ d, FrameSize.discrete d ∈ sizes → ∀ i,
      intT d.pixel_format d.width d.height i = intT' d.pixel_format d.width d.height i) :
    collectFrameIntervals intT sizes fuel = collectFrameIntervals intT' sizes fuel := by
  unfold collectFrameIntervals
  suffices h : ∀ acc : List FrameInterval,
      sizes.foldlM
        (fun acc fs => match fs with
          | FrameSize.discrete d =>
            (iter_frame_intervals intT d.pixel_format d.width d.height fuel).map
              (acc ++ ·)
          | FrameSize.stepwise _ => .ok acc) acc
      = sizes.foldlM
        (fun acc fs => match fs with
          | FrameSize.discrete d =>
            (iter_frame_intervals intT' d.pixel_format d.width d.height fuel).map
              (acc ++ ·)
          | FrameSize.stepwise _ => .ok acc) acc by
    exact h []
  induction sizes with
  | nil => intro acc; rfl
  | cons fs rest ih =>
    have hagree' : ∀ d, FrameSize.discrete d ∈ rest → ∀ i,
        intT d.pixel_format d.width d.height i
          = intT' d.pixel_format d.width d.height i :=
      fun d hd => hagree d (List.mem_cons_of_mem _ hd)
    have ih' := ih hagree'
    intro acc
    cases fs with
    | discrete d =>
      have hkey : intT d.pixel_format d.width d.height
          = intT' d.pixel_format d.width d.height :=
        funext (hagree d (List.mem_cons_self _ _))
      have hiter : iter_frame_intervals intT d.pixel_format d.width d.height fuel
          = iter_frame_intervals intT' d.pixel_format d.width d.height fuel := by
        unfold iter_frame_intervals
        rw [hkey]
      rw [List.foldlM_cons, List.foldlM_cons]
      dsimp only
      rw [hiter]
      cases hres : iter_frame_intervals intT' d.pixel_format d.width d.height fuel with
      | error e => rfl
      | ok vs =>
        show rest.foldlM _ (acc ++ vs) = rest.foldlM _ (acc ++ vs)
        exact ih' (acc ++ vs)
    | stepwise s =>
      rw [List.foldlM_cons, List.foldlM_cons]
      dsimp only
      show rest.foldlM _ acc = rest.foldlM _ acc
      exact ih' acc

theorem except_bind_ok {ε α β : Type} (a : α) (f : α → Except ε β) :
    (Except.ok a >>= f) = f a := rfl

/-- `DeviceInfo.from_file` assembled from the three successful stages. -/
theorem DeviceInfo.from_file_stages (cap : CapReply)
    (fmtT : Nat → Nat → Except OSErr FmtReply)
    (sizeT : Nat → Nat → Except OSErr FrameSizeReply)
    (intT : Nat → Nat → Nat → Nat → Except OSErr FrameIntervalReply)
    (fuel : Nat) (formats : List ImageFormat) (sizes : List FrameSize)
    (fi : List FrameInterval)
    (hf : collectImageFormats fmtT cap.device_caps fuel = .ok formats)
    (hs : collectFrameSizes sizeT (pixelFormatsOf formats) fuel = .ok sizes)
    (hi : collectFrameIntervals intT sizes fuel = .ok fi) :
    DeviceInfo.from_file (.ok cap) fmtT sizeT intT fuel
      = .ok ⟨cap.driver, cap.card, cap.bus_info,
          (cap.version >>> 16 &&& 0xFF, cap.version >>> 8 &&& 0xFF,
            cap.version &&& 0xFF),
          cap.capabilities, cap.device_caps, formats, sizes, fi⟩ := by
  simp only [DeviceInfo.from_file]
  rw [hf, except_bind_ok]
  rw [hs, except_bind_ok]
  rw [hi, except_bind_ok]
  rfl

/-- C5: the frame-interval enumerator is consulted exactly at the keys
`(pixel_format, width, height)` of the *discrete* frame sizes collected in
the frame-size step — two interval transports agreeing there produce the
same snapshot, so a stepwise size triggers no interval enumeration — and
the snapshot's `frame_sizes` component is the collected list itself, with
its stepwise members intact, while `frame_intervals` is the concatenation
of the interval-enumerator runs over exactly the discrete sizes. -/
theorem c5_intervals_probed_exactly_for_discrete (cap : CapReply)
    (fmtT : Nat → Nat → Except OSErr FmtReply)
    (sizeT : Nat → Nat → Except OSErr FrameSizeReply)
    (intT intT' : Nat → Nat → Nat → Nat → Except OSErr FrameIntervalReply)
    (fuel : Nat) (formats : List ImageFormat) (sizes : List FrameSize)
    (ivs : DiscreteFrameSize → List FrameInterval)
    (hf : collectImageFormats fmtT cap.device_caps fuel = .ok formats)
    (hs : collectFrameSizes sizeT (pixelFormatsOf formats) fuel = .ok sizes)
    (hiv : ∀ d, FrameSize.discrete d ∈ sizes →
      iter_frame_intervals intT d.pixel_format d.width d.height fuel = .ok (ivs d))
    (hagree : ∀ d, FrameSize.discrete d ∈ sizes → ∀ i,
      intT d.pixel_format d.width d.height i
        = intT' d.pixel_format d.width d.height i) :
    DeviceInfo.from_file (.ok cap) fmtT sizeT intT fuel
        = DeviceInfo.from_file (.ok cap) fmtT sizeT intT' fuel ∧
    DeviceInfo.from_file (.ok cap) fmtT sizeT intT fuel
        = .ok ⟨cap.driver, cap.card, cap.bus_info,
            (cap.version >>> 16 &&& 0xFF, cap.version >>> 8 &&& 0xFF,
              cap.version &&& 0xFF),
            cap.capabilities, cap.device_caps, formats, sizes,
            sizes.flatMap fun fs => match fs with
              | .discrete d => ivs d
              | .stepwise _ => []⟩ := by
  have hi := collectFrameIntervals_eq intT fuel ivs sizes hiv
  have hcongr := collectFrameIntervals_congr intT intT' fuel sizes hagree
  have hmain := DeviceInfo.from_file_stages cap fmtT sizeT intT fuel
    formats sizes _ hf hs hi
  have hmain' := DeviceInfo.from_file_stages cap fmtT sizeT intT' fuel
    formats sizes _ hf hs (hcongr ▸ hi)
  exact ⟨by rw [hmain, hmain'], hmain⟩

/-- Concrete C5 scenario: one YUYV format on the capture buffer type. -/
def c5fmtT : Nat → Nat → Except OSErr FmtReply := fun _ i =>
  if i = 0 then .ok ⟨0, "YUYV 4:2:2", v4l2_fourcc 'Y' 'U' 'Y' 'V', 0⟩
  else .error ⟨EINVAL⟩

/-- Concrete C5 scenario: a stepwise size (min 16x16, max 1920x1080,
step 2x2) followed by a discrete 640x480 size. -/
def c5sizeT : Nat → Nat → Except OSErr FrameSizeReply := fun _ i =>
  if i = 0 then .ok ⟨3, 0, 0, 16, 1920, 2, 16, 1080, 2⟩
  else if i = 1 then .ok ⟨1, 640, 480, 0, 0, 0, 0, 0, 0⟩
  else .error ⟨EINVAL⟩

/-- Concrete C5 scenario: one 1/30 interval at every key. -/
def c5intT : Nat → Nat → Nat → Nat → Except OSErr FrameIntervalReply := fun _ _ _ i =>
  if i = 0 then .ok ⟨1, 1, 30, 0, 0, 0, 0, 0, 0⟩ else .error ⟨EINVAL⟩

/-- A transport agreeing with `c5intT` only at height-480 keys (in
particular at the discrete 640x480 key) and behaving differently
everywhere else. -/
def c5intTAlt : Nat → Nat → Nat → Nat → Except OSErr FrameIntervalReply := fun p w h i =>
  if h = 480 then c5intT p w h i else .error ⟨5⟩

def c5formats : List ImageFormat :=
  [⟨1, 0, v4l2_fourcc 'Y' 'U' 'Y' 'V', "YUYV 4:2:2", 0⟩]

def c5sizes : List FrameSize :=
  [.stepwise ⟨v4l2_fourcc 'Y' 'U' 'Y' 'V', 16, 1920, 2, 16, 1080, 2⟩,
   .discrete ⟨v4l2_fourcc 'Y' 'U' 'Y' 'V', 640, 480⟩]

def c5ivs : DiscreteFrameSize → List FrameInterval := fun d =>
  [.discrete ⟨d.pixel_format, d.width, d.height, mkRat 1 30⟩]

/-- Witness for `c5_intervals_probed_exactly_for_discrete` on the concrete
stepwise-plus-discrete device. -/
theorem c5_intervals_probed_exactly_for_discrete_witness :
    DeviceInfo.from_file (.ok ⟨"uvcvideo", "Cam", "usb-0", 0, 1, 1⟩)
        c5fmtT c5sizeT c5intT 3
      = DeviceInfo.from_file (.ok ⟨"uvcvideo", "Cam", "usb-0", 0, 1, 1⟩)
        c5fmtT c5sizeT c5intTAlt 3 ∧
    DeviceInfo.from_file (.ok ⟨"uvcvideo", "Cam", "usb-0", 0, 1, 1⟩)
        c5fmtT c5sizeT c5intT 3
      = .ok ⟨"uvcvideo", "Cam", "usb-0", (0 >>> 16 &&& 0xFF, 0 >>> 8 &&& 0xFF, 0 &&& 0xFF),
          1, 1, c5formats, c5sizes,
          c5sizes.flatMap fun fs => match fs with
            | .discrete d => c5ivs d
            | .stepwise _ => []⟩ :=
  c5_intervals_probed_exactly_for_discrete ⟨"uvcvideo", "Cam", "usb-0", 0, 1, 1⟩
    c5fmtT c5sizeT c5intT c5intTAlt 3 c5formats c5sizes c5ivs
    rfl rfl
    (fun d hd => by
      rcases List.mem_cons.mp hd with h | hd2
      · exact absurd h (by simp [c5sizes])
      · rcases List.mem_cons.mp hd2 with h | h3
        · obtain rfl : d = ⟨v4l2_fourcc 'Y' 'U' 'Y' 'V', 640, 480⟩ :=
            FrameSize.discrete.inj h
          rfl
        · exact absurd h3 (List.not_mem_nil _))
    (fun d hd => by
      rcases List.mem_cons.mp hd with h | hd2
      · exact absurd h (by simp [c5sizes])
      · rcases List.mem_cons.mp hd2 with h | h3
        · obtain rfl : d = ⟨v4l2_fourcc 'Y' 'U' 'Y' 'V', 640, 480⟩ :=
            FrameSize.discrete.inj h
          intro i
          rfl
        · exact absurd h3 (List.not_mem_nil _))

/-- A decode fault at index `k`, after `k` clean iterations, aborts the loop
with that error: the `except OSError` clause does not catch it. -/
theorem enumLoop_decode_error {α β : Type} (step : Nat → Except OSErr α)
    (dec : α → Except PyErr (List β)) (rs : Nat → α) (k : Nat) (e : PyErr)
    (hok : ∀ i, i ≤ k → step i = .ok (rs i))
    (hdec : ∀ i, i < k → ∃ vs, dec (rs i) = .ok vs)
    (hbad : dec (rs k) = .error e) :
    ∀ fuel j, j ≤ k → k - j < fuel → enumLoop step dec j fuel = .error e := by
  intro fuel
  induction fuel with
  | zero => intro j hj hf; omega
  | succ fuel ih =>
    intro j hj hf
    by_cases hjk : j = k
    · subst hjk
      simp only [enumLoop, hok j (le_refl j), hbad]
    · have hjlt : j < k := by omega
      obtain ⟨vs, hvs⟩ := hdec j hjlt
      simp only [enumLoop, hok j (by omega), hvs]
      rw [ih (j + 1) (by omega) (by omega)]
      rfl

/-- C10: a transport-successful format reply whose pixel-format code is not
in the identifier table makes the format enumerator fail with a
`ValueError` — a decoding fault, distinct from the `OSError` transport
signal whose catch terminates the loop — and the same hard error aborts the
surrounding `DeviceInfo.from_file` snapshot. -/
theorem c10_unknown_pixel_format_is_hard_error (cap : CapReply)
    (fmtT : Nat → Nat → Except OSErr FmtReply)
    (sizeT : Nat → Nat → Except OSErr FrameSizeReply)
    (intT : Nat → Nat → Nat → Nat → Except OSErr FrameIntervalReply)
    (fuel k bt : Nat) (rf : Nat → FmtReply)
    (hbt : probedBufferTypes cap.device_caps = [bt])
    (hok : ∀ i, i ≤ k → fmtT bt i = .ok (rf i))
    (hprev : ∀ i, i < k → (rf i).pixelformat ∈ pixelFormatCodes)
    (hunknown : (rf k).pixelformat ∉ pixelFormatCodes)
    (hfuel : k < fuel) :
    iter_image_formats fmtT bt fuel = .error .valueError ∧
    DeviceInfo.from_file (.ok cap) fmtT sizeT intT fuel = .error .valueError := by
  have hdecbad : decodeImageFormat bt (rf k) = .error .valueError := by
    unfold decodeImageFormat
    rw [if_neg hunknown]
  have hloop : iter_image_formats fmtT bt fuel = .error .valueError := by
    unfold iter_image_formats
    refine enumLoop_decode_error (fmtT bt) _ rf k _ hok ?_ ?_ fuel 0 (by omega) (by omega)
    · intro i hi
      refine ⟨[⟨bt, (rf i).flags, (rf i).pixelformat, (rf i).description,
        (rf i).mbus_code⟩], ?_⟩
      show (decodeImageFormat bt (rf i)).map _ = _
      unfold decodeImageFormat
      rw [if_pos (hprev i hi)]
      rfl
    · show (decodeImageFormat bt (rf k)).map _ = _
      rw [hdecbad]
      rfl
  have hcoll : collectImageFormats fmtT cap.device_caps fuel = .error .valueError := by
    unfold collectImageFormats
    rw [hbt, List.foldlM_cons]
    rw [hloop]
    rfl
  refine ⟨hloop, ?_⟩
  simp only [DeviceInfo.from_file]
  rw [hcoll]
  rfl

/-- Witness for `c10_unknown_pixel_format_is_hard_error`: a capture-only
device whose first format reply carries the unknown pixel-format code 0. -/
theorem c10_unknown_pixel_format_witness :
    iter_image_formats (fun _ _ => .ok ⟨0, "", 0, 0⟩) 1 1 = .error .valueError ∧
    DeviceInfo.from_file (.ok ⟨"d", "c", "b", 0, 1, 1⟩)
        (fun _ _ => .ok ⟨0, "", 0, 0⟩)
        (fun _ _ => .error ⟨EINVAL⟩)
        (fun _ _ _ _ => .error ⟨EINVAL⟩) 1
      = .error .valueError :=
  c10_unknown_pixel_format_is_hard_error ⟨"d", "c", "b", 0, 1, 1⟩
    (fun _ _ => .ok ⟨0, "", 0, 0⟩) (fun _ _ => .error ⟨EINVAL⟩)
    (fun _ _ _ _ => .error ⟨EINVAL⟩) 1 0 1 (fun _ => ⟨0, "", 0, 0⟩)
    rfl (fun i _ => rfl) (fun i hi => absurd hi (by omega)) (by decide) (by omega)

/-- C3 (code bug): when the capability probe run inside `Device.__enter__`
raises, the descriptor `__enter__` opened is not closed — the method has no
try/finally, and Python does not invoke `__exit__` when `__enter__` raises —
so the open-descriptor list after the failed enter is `[3]`, not the `[]`
the claimed release-on-every-exit-path requires. -/
theorem c3_enter_leaks_descriptor_on_probe_failure :
    (Device.enter (Device.from_file "/dev/video0") 3
        (fun _ => .error (.osError ⟨5⟩))).1 = .error (.osError ⟨5⟩) ∧
    (Device.enter (Device.from_file "/dev/video0") 3
        (fun _ => .error (.osError ⟨5⟩))).2 = [3] :=
  ⟨rfl, rfl⟩
